import Mathlib

/-!
Shallow embedding of `src/telegram-reporter.ts` (class `TelegramReporter`,
a Playwright reporter posting test results to Telegram) and proofs about it.

Modelling conventions:
* JavaScript strings are modelled by Lean `String` (a list of characters);
  `s.length`, `s.substring(0, n)`, `s.split(sep)`, `s.toUpperCase()` and
  `s.replace(/tok/g, v)` are modelled by character-list operations defined
  below with the corresponding JS semantics.  (JS measures UTF-16 code
  units; we measure characters.  All claims are about character counts.)
* A missing (`undefined`) JS string is modelled by `""` where the code only
  ever tests truthiness (`!x`, `x || d`), and by `Option` where the code
  distinguishes presence (`?.`).
* Durations are integer milliseconds (`Nat`).  `Number.prototype.toFixed(2)`
  applied to `ms / 1000` is modelled by exact rational rounding (round half
  away from zero, per the ECMA-262 idealised description); IEEE-754 double
  artefacts on exact ties are outside this model.
* The async delivery code is modelled in an explicit exception-plus-trace
  form: a computation yields the list of performed effects (HTTP calls,
  `console.error` lines) together with `Except String α` (`Except.error`
  models a thrown/rejected value).  `try/catch` is a combinator on such
  computations.
* The source file in this snapshot stores its non-ASCII glyphs double
  encoded (UTF-8 read as cp1252 and re-encoded, e.g. the separator appears
  as three characters rendering the single intended glyph).  We use the
  intended glyphs, which is what the real program emits.
-/

/-- One execution attempt of a test, as read by the reporter:
`result.status` (string), `result.duration` (ms), `result.error`
(optional object with an optional `message` string). -/
structure AttemptResult where
  status : String
  duration : Nat
  errMessage : Option (Option String)
deriving DecidableEq

/-- The part of a Playwright `TestCase` that the reporter reads:
`titlePath()`, `parent.project()?.name`, `location.file`, `results`. -/
structure TestCase where
  titlePath : List String
  projectName : Option String
  file : String
  results : List AttemptResult
deriving DecidableEq

/-- The `title` option: a literal string or a function of the passed flag. -/
inductive TitleOption where
  | str (s : String)
  | fn (f : Bool → String)

/-- Raw constructor options (`TelegramReporterOptions`).  Optional string
fields are `Option String`; the custom formatter receives the run status
and the suite's tests (the data the TS `(result, suite) => string`
callback reads). -/
structure TelegramReporterOptions where
  botToken : String
  chatId : String
  reportType : Option String := none
  customFormatter : Option (String → List TestCase → String) := none
  sendOn : Option String := none
  testFormat : Option String := none
  title : Option TitleOption := none

/-- The resolved `this.options` record after the constructor merged
defaults. -/
structure ResolvedOptions where
  botToken : String
  chatId : String
  reportType : String
  customFormatter : Option (String → List TestCase → String)
  sendOn : String
  testFormat : String
  title : Option TitleOption

/-- JS `x || d` on an optional string: `undefined` and `""` are falsy. -/
def jsOrString (x : Option String) (d : String) : String :=
  match x with
  | some s => if s.isEmpty then d else s
  | none => d

/-- The default per-test template `"{GROUP} › {TEST} ({TIME})"`
(source line 30). -/
def defaultTestFormat : String := "{GROUP} › {TEST} ({TIME})"

/-- The constructor (source lines 23–39): merge defaults, then throw
`Error("TelegramReporter: botToken and chatId are required options")`
when `!botToken || !chatId`.  The thrown error is `Except.error`. -/
def TelegramReporter.construct (options : TelegramReporterOptions) :
    Except String ResolvedOptions :=
  let opts : ResolvedOptions :=
    { botToken := options.botToken
      chatId := options.chatId
      reportType := jsOrString options.reportType "summary"
      customFormatter := options.customFormatter
      sendOn := jsOrString options.sendOn "always"
      testFormat := jsOrString options.testFormat defaultTestFormat
      title := options.title }
  if opts.botToken == "" || opts.chatId == "" then
    Except.error "TelegramReporter: botToken and chatId are required options"
  else
    Except.ok opts

/-- `shouldSend` (source lines 61–77): gate on `sendOn` and
`result.status`. -/
def shouldSend (sendOn : String) (status : String) : Bool :=
  if sendOn == "always" then
    true
  else if sendOn == "failure" then
    !(status == "passed")
  else if sendOn == "success" then
    status == "passed"
  else
    true

/-- JS `message.substring(0, e)`: the first `e` characters. -/
def jsSubstring (s : String) (e : Nat) : String := ⟨s.data.take e⟩

/-- The literal appended by the clamp in `sendTelegramMessage`
(source line 273): `...` + blank line + `[Message truncated]`. -/
def truncationMarker : String := "...\n\n[Message truncated]"

/-- The pre-send clamp of `sendTelegramMessage` (source lines 268–274):
`maxLength = 4096`; a longer message becomes
`message.substring(0, maxLength - 50)` followed by the marker. -/
def clampMessage (message : String) : String :=
  if message.length > 4096 then
    jsSubstring message (4096 - 50) ++ truncationMarker
  else
    message

/-- An observable effect of the delivery code: one `fetch` POST (url,
`chat_id` and `text` fields of the JSON body) or one `console.error`
line. -/
inductive Effect where
  | fetchCall (url : String) (chatId : String) (text : String)
  | logError (msg : String)
deriving DecidableEq

/-- A JS async computation, reduced to the effects it performs and its
outcome (`Except.error` = rejection). -/
abbrev JsComp (α : Type) := List Effect × Except String α

/-- Sequencing (`await` then continue); a rejection short-circuits. -/
def jsSeq {α β : Type} : JsComp α → (α → JsComp β) → JsComp β
  | (effs, Except.error e), _ => (effs, Except.error e)
  | (effs, Except.ok a), k =>
    let r := k a
    (effs ++ r.1, r.2)

/-- JS `try body catch (e) handler`. -/
def tryCatchJs {α : Type} : JsComp α → (String → JsComp α) → JsComp α
  | (effs, Except.ok a), _ => (effs, Except.ok a)
  | (effs, Except.error e), handler =>
    let r := handler e
    (effs ++ r.1, r.2)

/-- `console.error` with a single message. -/
def jsLogError (msg : String) : JsComp Unit :=
  ([Effect.logError msg], Except.ok ())

/-- The shape of a `fetch` `Response` the code reads: `ok`, `status`,
and the body text. -/
structure HttpResponse where
  ok : Bool
  status : Nat
  body : String
deriving DecidableEq

/-- The transport outcome of this run's single `fetch`:
`Except.ok r` = the promise resolved with response `r`,
`Except.error e` = the promise rejected (network error). -/
abbrev Transport := Except String HttpResponse

/-- One `fetch(url, {... chat_id, text ...})` call: records the request
and produces the ambient transport outcome. -/
def jsFetch (transport : Transport) (url chatId text : String) :
    JsComp HttpResponse :=
  ([Effect.fetchCall url chatId text], transport)

/-- `sendTelegramMessage` (source lines 264–302): build the URL, clamp
the message, then `try { fetch; if (!response.ok) log twice } catch
{ log }`. -/
def sendTelegramMessage (transport : Transport)
    (botToken chatId message : String) : JsComp Unit :=
  let url := "https://api.telegram.org/bot" ++ botToken ++ "/sendMessage"
  let textToSend := clampMessage message
  tryCatchJs
    (jsSeq (jsFetch transport url chatId textToSend) (fun response =>
      if !response.ok then
        jsSeq
          (jsLogError
            ("TelegramReporter: Failed to send message. Status: " ++
              toString response.status))
          (fun _ => jsLogError ("TelegramReporter: Error: " ++ response.body))
      else
        ([], Except.ok ())))
    (fun e =>
      jsLogError ("TelegramReporter: Error sending message to Telegram: " ++ e))

/-- Is an effect an HTTP send attempt? -/
def isFetchCall : Effect → Bool
  | Effect.fetchCall _ _ _ => true
  | Effect.logError _ => false

/-- Number of HTTP send attempts in an effect trace. -/
def countFetch (effs : List Effect) : Nat := effs.countP isFetchCall

/-- JS `s.toUpperCase()` (ASCII-relevant part). -/
def jsToUpperCase (s : String) : String := ⟨s.data.map Char.toUpper⟩

/-- `(ms / 1000).toFixed(2)` for an integer number of milliseconds:
round to centiseconds (half away from zero) and print with two decimal
digits. -/
def toFixed2 (ms : Nat) : String :=
  let cs := (ms + 5) / 10
  let frac := cs % 100
  toString (cs / 100) ++ "." ++
    (if frac < 10 then "0" ++ toString frac else toString frac)

/-- Scanner for `jsReplaceAll`: structural recursion on fuel (enough fuel
is supplied to scan the whole string). -/
def jsReplaceAllAux (pattern replacement : List Char) :
    Nat → List Char → List Char
  | 0, s => s
  | Nat.succ fuel, s =>
    match s with
    | [] => []
    | c :: rest =>
      if pattern.isPrefixOf (c :: rest) then
        replacement ++
          jsReplaceAllAux pattern replacement fuel ((c :: rest).drop pattern.length)
      else
        c :: jsReplaceAllAux pattern replacement fuel rest

/-- JS `s.replace(/pattern/g, replacement)` for a literal pattern:
replace every (left-to-right, non-overlapping) occurrence; replacements
are not rescanned. -/
def jsReplaceAll (s pattern replacement : String) : String :=
  if pattern.isEmpty then s
  else ⟨jsReplaceAllAux pattern.data replacement.data s.data.length s.data⟩

/-- Scanner for `jsSplit`, fuelled like `jsReplaceAllAux`. -/
def jsSplitAux (sep : List Char) : Nat → List Char → List Char → List (List Char)
  | 0, _, acc => [acc]
  | Nat.succ fuel, s, acc =>
    if sep.isPrefixOf s then
      acc :: jsSplitAux sep fuel (s.drop sep.length) []
    else
      match s with
      | [] => [acc]
      | c :: rest => jsSplitAux sep fuel rest (acc ++ [c])

/-- JS `s.split(sep)` for a non-empty literal separator. -/
def jsSplit (s sep : String) : List String :=
  if sep.isEmpty then s.data.map (fun c => String.mk [c])
  else (jsSplitAux sep.data (s.data.length + 1) s.data []).map String.mk

/-- The default title of `getTitle` (source lines 110–112): a status
glyph and the fixed product label. -/
def defaultTitle (passed : Bool) : String :=
  (if passed then "✅" else "❌") ++ " Playwright Test Results"

/-- `getTitle` (source lines 103–113).  JS `if (title)`: `undefined` and
`""` are falsy (a configured empty string falls back to the default);
a function is applied to the passed flag. -/
def getTitle (title : Option TitleOption) (passed : Bool) : String :=
  match title with
  | some (TitleOption.fn f) => f passed
  | some (TitleOption.str s) => if s.isEmpty then defaultTitle passed else s
  | none => defaultTitle passed

/-- The bucket predicate `test.results[0]?.status === s`
(used by both summary and detailed grouping). -/
def firstStatusIs (s : String) (t : TestCase) : Bool :=
  match t.results.head? with
  | some r => r.status == s
  | none => false

/-- `generateSimpleReport` (source lines 142–145). -/
def generateSimpleReport (o : ResolvedOptions) (status : String) : String :=
  getTitle o.title (status == "passed") ++ "\n\nStatus: " ++ jsToUpperCase status

/-- `generateSummaryReport` (source lines 147–177).  `durationMs` stands
for `Date.now() - this.startTime`. -/
def generateSummaryReport (o : ResolvedOptions) (status : String)
    (tests : List TestCase) (durationMs : Nat) : String :=
  let durationSec := toFixed2 durationMs
  let isPassed := status == "passed"
  let passed := (tests.filter (firstStatusIs "passed")).length
  let failed := (tests.filter (firstStatusIs "failed")).length
  let skipped := (tests.filter (firstStatusIs "skipped")).length
  let timedOut := (tests.filter (firstStatusIs "timedOut")).length
  getTitle o.title isPassed ++ "\n\nStatus: " ++ jsToUpperCase status ++
    "\nDuration: " ++ durationSec ++ "s\n\n📊 Summary:\n• Total: " ++
    toString tests.length ++
    "\n• Passed: " ++ toString passed ++
    "\n• Failed: " ++ toString failed ++
    "\n• Skipped: " ++ toString skipped ++ "\n" ++
    (if timedOut > 0 then "• Timed Out: " ++ toString timedOut else "")

/-- `formatTest` local `browser` (source line 120):
`test.parent.project()?.name || ""`. -/
def browserOf (t : TestCase) : String := t.projectName.getD ""

/-- `formatTest` local `filename` (source line 121):
`test.location.file.split("/").pop() || ""`. -/
def filenameOf (t : TestCase) : String := ((jsSplit t.file "/").getLast?).getD ""

/-- `formatTest` local `testName` (source line 125):
`titlePath[titlePath.length - 1] || ""`. -/
def testNameOf (t : TestCase) : String := (t.titlePath.getLast?).getD ""

/-- `formatTest` local `suites` (source lines 128–130): drop the final
title-path segment, then drop every segment equal to the browser label or
the filename. -/
def suitesOf (t : TestCase) : List String :=
  (t.titlePath.dropLast).filter
    (fun title => title != browserOf t && title != filenameOf t)

/-- `formatTest` local `group` (source line 132): the surviving suite
titles joined with the separator glyph. -/
def groupOf (t : TestCase) : String := String.intercalate " › " (suitesOf t)

/-- `formatTest` (source lines 118–140): substitute the five placeholder
tokens (in the source's order) into the configured template. -/
def formatTest (o : ResolvedOptions) (t : TestCase) (duration : String) :
    String :=
  jsReplaceAll
    (jsReplaceAll
      (jsReplaceAll
        (jsReplaceAll
          (jsReplaceAll o.testFormat "{BROWSER}" (browserOf t))
          "{FILENAME}" (filenameOf t))
        "{GROUP}" (groupOf t))
      "{TEST}" (testNameOf t))
    "{TIME}" duration

/-- The duration string of `formatTestLine` (source lines 213–215):
`test.results[0]?.duration ? toFixed(2)+"s" : "N/A"`.  JS truthiness:
a missing first attempt and a duration of `0` both yield `"N/A"`. -/
def formatTestLineDuration (t : TestCase) : String :=
  match t.results.head? with
  | some r => if r.duration = 0 then "N/A" else toFixed2 r.duration ++ "s"
  | none => "N/A"

/-- `formatTestLine` (source lines 212–217). -/
def formatTestLine (o : ResolvedOptions) (t : TestCase) : String :=
  formatTest o t (formatTestLineDuration t)

/-- The error block appended for a failed test (source lines 224–230):
present iff `test.results[0]?.error` is truthy; up to the first three
lines of its message (or `"Unknown error"` when the message is falsy),
joined with a newline and an 11-space continuation indent. -/
def errorPart (t : TestCase) : String :=
  match t.results.head? with
  | some r =>
    match r.errMessage with
    | some msgOpt =>
      let errorLines :=
        match msgOpt with
        | some m =>
          if m.isEmpty then ["Unknown error"] else (jsSplit m "\n").take 3
        | none => ["Unknown error"]
      "    Error: " ++ String.intercalate "\n           " errorLines ++ "\n"
    | none => ""
  | none => ""

/-- The loop body for one failed test (source lines 222–231): a bullet
line preceded by a blank line, then the optional error block. -/
def failedEntry (o : ResolvedOptions) (t : TestCase) : String :=
  "\n  • " ++ formatTestLine o t ++ "\n" ++ errorPart t

/-- The loop body for one timed-out or passed test (source lines 239 and
257): a bullet line with the formatted duration. -/
def bulletEntry (o : ResolvedOptions) (t : TestCase) : String :=
  "  • " ++ formatTestLine o t ++ "\n"

/-- The loop body for one skipped test (source line 248): a bullet line
with the literal `"N/A"` duration. -/
def skippedEntry (o : ResolvedOptions) (t : TestCase) : String :=
  "  • " ++ formatTest o t "N/A" ++ "\n"

/-- `generateDetailedReport` (source lines 179–262).  The grouping
`for`-loop with its `else if` chain is rendered as four filters (the four
status tests are mutually exclusive); the sequential `report +=`
statements are rendered as folds over the buckets. -/
def generateDetailedReport (o : ResolvedOptions) (status : String)
    (tests : List TestCase) (durationMs : Nat) : String :=
  let durationSec := toFixed2 durationMs
  let isPassed := status == "passed"
  let passed := tests.filter (firstStatusIs "passed")
  let failed := tests.filter (firstStatusIs "failed")
  let skipped := tests.filter (firstStatusIs "skipped")
  let timedOut := tests.filter (firstStatusIs "timedOut")
  let report := getTitle o.title isPassed ++ "\n\n"
  let report := report ++ "Status: " ++ jsToUpperCase status ++ "\n"
  let report := report ++ "Duration: " ++ durationSec ++ "s\n\n"
  let report := report ++ "📊 Summary:\n"
  let report := report ++ "• Total: " ++ toString tests.length ++ "\n"
  let report := report ++ "• Passed: " ++ toString passed.length ++ "\n"
  let report := report ++ "• Failed: " ++ toString failed.length ++ "\n"
  let report := report ++ "• Skipped: " ++ toString skipped.length ++ "\n"
  let report :=
    if timedOut.length > 0 then
      report ++ "• Timed Out: " ++ toString timedOut.length ++ "\n"
    else report
  let report := report ++ "\n"
  let report :=
    if failed.length > 0 then
      (failed.foldl (fun r t => r ++ failedEntry o t)
        (report ++ "❌ FAILED (" ++ toString failed.length ++ "):\n")) ++ "\n"
    else report
  let report :=
    if timedOut.length > 0 then
      (timedOut.foldl (fun r t => r ++ bulletEntry o t)
        (report ++ "⏱️ TIMED OUT (" ++ toString timedOut.length ++ "):\n")) ++ "\n"
    else report
  let report :=
    if skipped.length > 0 then
      (skipped.foldl (fun r t => r ++ skippedEntry o t)
        (report ++ "⏭️ SKIPPED (" ++ toString skipped.length ++ "):\n")) ++ "\n"
    else report
  if passed.length > 0 then
    passed.foldl (fun r t => r ++ bulletEntry o t)
      (report ++ "✅ PASSED (" ++ toString passed.length ++ "):\n")
  else report

/-- `generateReport` (source lines 79–98): the custom formatter, when
configured, short-circuits; otherwise dispatch on `reportType` with
`generateSummaryReport` as the `default` branch. -/
def generateReport (o : ResolvedOptions) (status : String)
    (tests : List TestCase) (durationMs : Nat) : String :=
  match o.customFormatter with
  | some f => f status tests
  | none =>
    if o.reportType == "simple" then generateSimpleReport o status
    else if o.reportType == "summary" then
      generateSummaryReport o status tests durationMs
    else if o.reportType == "detailed" then
      generateDetailedReport o status tests durationMs
    else generateSummaryReport o status tests durationMs

/-- `onEnd` (source lines 46–59): missing suite short-circuits with a
diagnostic; a negative gate decision short-circuits silently; otherwise
generate the report and send it.  `suite` is the retained suite's
`allTests()`, `durationMs` is `Date.now() - this.startTime`. -/
def onEnd (o : ResolvedOptions) (suite : Option (List TestCase))
    (status : String) (durationMs : Nat) (transport : Transport) :
    JsComp Unit :=
  match suite with
  | none => jsLogError "TelegramReporter: Suite data not available"
  | some tests =>
    if !(shouldSend o.sendOn status) then ([], Except.ok ())
    else
      sendTelegramMessage transport o.botToken o.chatId
        (generateReport o status tests durationMs)

/-- Left-to-right concatenation of rendered entries, the way the
`report +=` loops accumulate text. -/
def concatMap {α : Type} (g : α → String) (l : List α) : String :=
  l.foldl (fun r t => r ++ g t) ""

/-- The part of the detailed report before the outcome sections: title,
status, duration, and the summary block, ending with the blank line of
source line 209.  The optional Timed Out line is present exactly when
the timed-out bucket is non-empty. -/
def detailedHeader (o : ResolvedOptions) (status : String)
    (tests : List TestCase) (durationMs : Nat) : String :=
  getTitle o.title (status == "passed") ++ "\n\n" ++
    "Status: " ++ jsToUpperCase status ++ "\n" ++
    "Duration: " ++ toFixed2 durationMs ++ "s\n\n" ++
    "📊 Summary:\n" ++
    "• Total: " ++ toString tests.length ++ "\n" ++
    "• Passed: " ++ toString (tests.filter (firstStatusIs "passed")).length ++ "\n" ++
    "• Failed: " ++ toString (tests.filter (firstStatusIs "failed")).length ++ "\n" ++
    "• Skipped: " ++ toString (tests.filter (firstStatusIs "skipped")).length ++ "\n" ++
    (if (tests.filter (firstStatusIs "timedOut")).length > 0 then
      "• Timed Out: " ++
        (toString (tests.filter (firstStatusIs "timedOut")).length ++ "\n")
    else "") ++ "\n"

/-- The failed section: absent (empty string) for an empty bucket,
otherwise a header with the count, the entries, and a closing blank-line
separator. -/
def detailedFailedSection (o : ResolvedOptions) (failed : List TestCase) :
    String :=
  if failed.length > 0 then
    "❌ FAILED (" ++
      (toString failed.length ++
        ("):\n" ++ (concatMap (failedEntry o) failed ++ "\n")))
  else ""

/-- The timed-out section: absent for an empty bucket. -/
def detailedTimedOutSection (o : ResolvedOptions) (timedOut : List TestCase) :
    String :=
  if timedOut.length > 0 then
    "⏱️ TIMED OUT (" ++
      (toString timedOut.length ++
        ("):\n" ++ (concatMap (bulletEntry o) timedOut ++ "\n")))
  else ""

/-- The skipped section: absent for an empty bucket; every entry renders
with the literal `"N/A"` duration. -/
def detailedSkippedSection (o : ResolvedOptions) (skipped : List TestCase) :
    String :=
  if skipped.length > 0 then
    "⏭️ SKIPPED (" ++
      (toString skipped.length ++
        ("):\n" ++ (concatMap (skippedEntry o) skipped ++ "\n")))
  else ""

/-- The passed section: absent for an empty bucket; no trailing
separator (it is last). -/
def detailedPassedSection (o : ResolvedOptions) (passed : List TestCase) :
    String :=
  if passed.length > 0 then
    "✅ PASSED (" ++
      (toString passed.length ++ ("):\n" ++ concatMap (bulletEntry o) passed))
  else ""

-- Concrete data used by the closed instances below.

/-- A resolved option record with every default. -/
def defaultResolvedOptions : ResolvedOptions :=
  { botToken := "token", chatId := "chat", reportType := "summary",
    customFormatter := none, sendOn := "always",
    testFormat := defaultTestFormat, title := none }

/-- Options whose per-test template is just the test name and time. -/
def exampleDetailedOptions : ResolvedOptions :=
  { defaultResolvedOptions with testFormat := "{TEST} ({TIME})" }

/-- Options whose per-test template is just the time. -/
def timeOnlyOptions : ResolvedOptions :=
  { defaultResolvedOptions with testFormat := "{TIME}" }

/-- Options with an unrecognized report style. -/
def weirdOptions : ResolvedOptions :=
  { defaultResolvedOptions with reportType := "weird" }

/-- A minimal test record with one attempt of the given status. -/
def simpleCase (status : String) (duration : Nat) : TestCase :=
  { titlePath := [], projectName := none, file := "",
    results := [{ status := status, duration := duration, errMessage := none }] }

/-- A test record named by its single title segment, with one attempt. -/
def namedCase (name status : String) (duration : Nat)
    (err : Option (Option String)) : TestCase :=
  { titlePath := [name], projectName := none, file := "",
    results := [{ status := status, duration := duration, errMessage := err }] }

/-- The run of the summary example: first-attempt statuses
passed, passed, failed, skipped, timedOut. -/
def exampleFiveTests : List TestCase :=
  [simpleCase "passed" 5, simpleCase "passed" 5, simpleCase "failed" 5,
   simpleCase "skipped" 0, simpleCase "timedOut" 5]

/-- A run with no timed-out records. -/
def examplePassedOnly : List TestCase :=
  [simpleCase "passed" 5, simpleCase "passed" 5]

/-- A run whose input order (passed, timed-out, skipped, failed) differs
from the detailed report's fixed section order. -/
def exampleScrambledTests : List TestCase :=
  [namedCase "p1" "passed" 1500 none,
   namedCase "t1" "timedOut" 30000 none,
   namedCase "s1" "skipped" 0 none,
   namedCase "f1" "failed" 2000 (some (some "line1\nline2\nline3\nline4\nline5"))]

/-- The test of the template-substitution example: title path
`[chromium, login.spec.ts, Auth, logs in]`, project `chromium`,
file `login.spec.ts`. -/
def exampleAuthTest : TestCase :=
  { titlePath := ["chromium", "login.spec.ts", "Auth", "logs in"],
    projectName := some "chromium", file := "login.spec.ts", results := [] }

/-- A test whose first attempt has duration `0` ms. -/
def zeroDurationCase : TestCase :=
  { titlePath := ["z"], projectName := none, file := "",
    results := [{ status := "failed", duration := 0, errMessage := none }] }

/-- A 5000-character message. -/
def longMessage : String := String.mk (List.replicate 5000 'a')

-- Helper lemmas.

theorem length_mk (l : List Char) : (String.mk l).length = l.length := rfl

theorem foldl_append_entry {α : Type} (g : α → String) (l : List α) :
    ∀ init : String,
      l.foldl (fun r t => r ++ g t) init = init ++ concatMap g l := by
  induction l with
  | nil => intro init; simp [concatMap, String.append_empty]
  | cons a as ih =>
    intro init
    simp only [concatMap, List.foldl] at ih ⊢
    rw [ih (init ++ g a), ih ("" ++ g a), String.empty_append,
      String.append_assoc]

-- Basic length facts about the clamp.

theorem truncationMarker_length : truncationMarker.length = 24 := rfl

theorem jsSubstring_length (s : String) (e : Nat) :
    (jsSubstring s e).length = min e s.length := by
  cases s with
  | mk data => exact List.length_take e data

theorem clampMessage_length_le (m : String) :
    (clampMessage m).length ≤ 4096 := by
  unfold clampMessage
  by_cases h : m.length > 4096
  · simp only [h, if_true]
    have h1 : (jsSubstring m (4096 - 50)).length = 4046 := by
      rw [jsSubstring_length]
      omega
    have h2 : (jsSubstring m (4096 - 50) ++ truncationMarker).length =
        (jsSubstring m (4096 - 50)).length + truncationMarker.length :=
      String.length_append _ _
    have h3 := truncationMarker_length
    omega
  · simp only [h, if_false]
    omega

/-- C1: the send gate returns true when the policy is "always";
(status is not "passed") when the policy is "failure"; (status is
"passed") when the policy is "success"; and true for every unrecognized
policy.  `shouldSend` is a pure function of exactly these two inputs. -/
theorem shouldSend_gate_spec :
    ∀ status : String,
      shouldSend "always" status = true ∧
      shouldSend "failure" status = !(status == "passed") ∧
      shouldSend "success" status = (status == "passed") ∧
      ∀ policy : String,
        policy ≠ "always" → policy ≠ "failure" → policy ≠ "success" →
        shouldSend policy status = true := by
  intro status
  refine ⟨rfl, by simp [shouldSend], by simp [shouldSend], ?_⟩
  intro policy h1 h2 h3
  simp [shouldSend, beq_iff_eq, h1, h2, h3]

/-- Witness for C1: an unrecognized policy yields true at a concrete
input. -/
theorem shouldSend_gate_spec_witness :
    shouldSend "custom-policy" "interrupted" = true :=
  (shouldSend_gate_spec "interrupted").2.2.2 "custom-policy"
    (by decide) (by decide) (by decide)

/-- C5: construction returns the construction error iff the bot token or
the chat id is the empty (missing) string; with both non-empty it
succeeds regardless of every other option. -/
theorem construct_error_iff :
    ∀ options : TelegramReporterOptions,
      ((TelegramReporter.construct options).isOk = true ↔
        (options.botToken ≠ "" ∧ options.chatId ≠ "")) ∧
      ((options.botToken = "" ∨ options.chatId = "") →
        TelegramReporter.construct options =
          Except.error
            "TelegramReporter: botToken and chatId are required options") := by
  intro options
  unfold TelegramReporter.construct
  by_cases h1 : options.botToken = "" <;> by_cases h2 : options.chatId = "" <;>
    simp [h1, h2, beq_iff_eq, Except.isOk, Except.toBool]

/-- Witness for C5: an empty bot token raises the construction error. -/
theorem construct_error_iff_witness :
    TelegramReporter.construct { botToken := "", chatId := "chat" } =
      Except.error
        "TelegramReporter: botToken and chatId are required options" :=
  (construct_error_iff { botToken := "", chatId := "chat" }).2 (Or.inl rfl)

/-- C10: with no custom formatter configured, a reportType outside
simple/summary/detailed dispatches to exactly the summary report. -/
theorem generateReport_default_is_summary :
    ∀ (o : ResolvedOptions) (status : String) (tests : List TestCase)
      (d : Nat),
      o.customFormatter = none → o.reportType ≠ "simple" →
      o.reportType ≠ "summary" → o.reportType ≠ "detailed" →
      generateReport o status tests d =
        generateSummaryReport o status tests d := by
  intro o status tests d hc h1 h2 h3
  simp [generateReport, hc, beq_iff_eq, h1, h2, h3]

/-- Witness for C10: reportType "weird" yields the summary report. -/
theorem generateReport_default_is_summary_witness :
    generateReport weirdOptions "passed" [] 0 =
      generateSummaryReport weirdOptions "passed" [] 0 :=
  generateReport_default_is_summary weirdOptions "passed" [] 0 rfl
    (by decide) (by decide) (by decide)

/-- C2 counterexample: the clamp of a 5000-character message has length
4070 = 4046 + 24, not 4096 (the code removes 50 characters but the
appended marker restores only 24). -/
theorem clampMessage_5000_not_4096 :
    (clampMessage longMessage).length = 4070 ∧ (4070 : Nat) ≠ 4096 := by
  constructor
  · have hlen : longMessage.length = 5000 := by
      unfold longMessage
      rw [length_mk, List.length_replicate]
    unfold clampMessage
    rw [if_pos (by omega)]
    rw [String.length_append, jsSubstring_length, hlen, truncationMarker_length]
    omega
  · decide

/-- C2 amended: every message longer than 4096 characters clamps to its
first 4046 characters plus the 24-character marker, so the clamped text
has length exactly 4070 (within the 4096 ceiling), not 4096. -/
theorem clampMessage_long_spec :
    ∀ m : String, m.length > 4096 →
      clampMessage m = jsSubstring m (4096 - 50) ++ truncationMarker ∧
      (clampMessage m).length = 4070 := by
  intro m h
  have he : clampMessage m = jsSubstring m (4096 - 50) ++ truncationMarker := by
    unfold clampMessage
    rw [if_pos h]
  refine ⟨he, ?_⟩
  rw [he, String.length_append, jsSubstring_length, truncationMarker_length]
  omega

/-- Witness for the amended C2 at the 5000-character message. -/
theorem clampMessage_long_spec_witness :
    longMessage.length > 4096 ∧ (clampMessage longMessage).length = 4070 := by
  have hlen : longMessage.length = 5000 := by
    unfold longMessage
    rw [length_mk, List.length_replicate]
  have h : longMessage.length > 4096 := by omega
  exact ⟨h, (clampMessage_long_spec longMessage h).2⟩

/-- C3: the text handed to the HTTP call is exactly the clamped message;
it never exceeds 4096 characters, and a message of length at most 4096
is transmitted unmodified. -/
theorem sendTelegramMessage_text_spec :
    ∀ (transport : Transport) (bot chat m : String),
      (sendTelegramMessage transport bot chat m).1.head? =
        some (Effect.fetchCall
          ("https://api.telegram.org/bot" ++ bot ++ "/sendMessage")
          chat (clampMessage m)) ∧
      (clampMessage m).length ≤ 4096 ∧
      (m.length ≤ 4096 → clampMessage m = m) := by
  intro transport bot chat m
  refine ⟨?_, clampMessage_length_le m, ?_⟩
  · cases transport with
    | ok r =>
      by_cases h : r.ok <;>
        simp [sendTelegramMessage, jsFetch, jsSeq, tryCatchJs, jsLogError, h]
    | error e =>
      simp [sendTelegramMessage, jsFetch, jsSeq, tryCatchJs, jsLogError]
  · intro h
    unfold clampMessage
    rw [if_neg (by omega)]

/-- Witness for C3: a short message is transmitted unmodified. -/
theorem sendTelegramMessage_text_spec_witness :
    (clampMessage "hi").length ≤ 4096 ∧ clampMessage "hi" = "hi" :=
  ⟨(sendTelegramMessage_text_spec (Except.error "err") "b" "c" "hi").2.1,
   (sendTelegramMessage_text_spec (Except.error "err") "b" "c" "hi").2.2
     (by decide)⟩

/-- C4: the summary report shows Total = number of records and each
status count = number of records whose first attempt has that status
(`List.countP`); a record with no attempts counts toward Total (it is in
`tests.length`) but toward no bucket; the Timed Out line is present iff
its count is positive; the five-record example renders Total 5 /
Passed 2 / Failed 1 / Skipped 1 / Timed Out 1, and a run with no
timed-out records omits the Timed Out line. -/
theorem generateSummaryReport_counts :
    (∀ (o : ResolvedOptions) (status : String) (tests : List TestCase)
      (d : Nat),
      generateSummaryReport o status tests d =
        getTitle o.title (status == "passed") ++ "\n\nStatus: " ++
          jsToUpperCase status ++ "\nDuration: " ++ toFixed2 d ++
          "s\n\n📊 Summary:\n• Total: " ++ toString tests.length ++
          "\n• Passed: " ++ toString (tests.countP (firstStatusIs "passed")) ++
          "\n• Failed: " ++ toString (tests.countP (firstStatusIs "failed")) ++
          "\n• Skipped: " ++ toString (tests.countP (firstStatusIs "skipped")) ++
          "\n" ++
          (if tests.countP (firstStatusIs "timedOut") > 0 then
            "• Timed Out: " ++ toString (tests.countP (firstStatusIs "timedOut"))
          else "")) ∧
    (∀ (tp : List String) (pn : Option String) (f s : String),
      firstStatusIs s
        { titlePath := tp, projectName := pn, file := f, results := [] } =
        false) ∧
    generateSummaryReport defaultResolvedOptions "failed" exampleFiveTests 1000 =
      "❌ Playwright Test Results\n\nStatus: FAILED\nDuration: 1.00s\n\n📊 Summary:\n• Total: 5\n• Passed: 2\n• Failed: 1\n• Skipped: 1\n• Timed Out: 1" ∧
    generateSummaryReport defaultResolvedOptions "passed" examplePassedOnly 1000 =
      "✅ Playwright Test Results\n\nStatus: PASSED\nDuration: 1.00s\n\n📊 Summary:\n• Total: 2\n• Passed: 2\n• Failed: 0\n• Skipped: 0\n" := by
  refine ⟨?_, ?_, rfl, rfl⟩
  · intro o status tests d
    simp [generateSummaryReport, List.countP_eq_length_filter]
  · intro tp pn f s
    rfl

/-- C9 counterexample: a first attempt whose duration is 0 ms renders
the literal "N/A" (JS truthiness of 0), not "0.00s" as the claim's
universal duration formula requires. -/
theorem formatTestLine_zero_duration_counterexample :
    formatTestLineDuration zeroDurationCase = "N/A" ∧
    formatTestLine timeOnlyOptions zeroDurationCase = "N/A" ∧
    toFixed2 0 ++ "s" = "0.00s" ∧
    ("N/A" : String) ≠ "0.00s" := by
  refine ⟨rfl, rfl, rfl, by decide⟩

/-- C9 amended: in the detailed report a first attempt with positive
duration d renders (d/1000) fixed to two decimals suffixed with "s"; a
first attempt with duration 0 and a missing first attempt render the
literal "N/A"; skipped entries always render with the literal "N/A". -/
theorem formatTestLine_duration_spec :
    (∀ (o : ResolvedOptions) (t : TestCase) (r : AttemptResult),
      t.results.head? = some r → 0 < r.duration →
      formatTestLine o t = formatTest o t (toFixed2 r.duration ++ "s")) ∧
    (∀ (o : ResolvedOptions) (t : TestCase) (r : AttemptResult),
      t.results.head? = some r → r.duration = 0 →
      formatTestLine o t = formatTest o t "N/A") ∧
    (∀ (o : ResolvedOptions) (t : TestCase),
      t.results.head? = none → formatTestLine o t = formatTest o t "N/A") ∧
    (∀ (o : ResolvedOptions) (t : TestCase),
      skippedEntry o t = "  • " ++ formatTest o t "N/A" ++ "\n") := by
  refine ⟨?_, ?_, ?_, fun o t => rfl⟩
  · intro o t r h hd
    have hne : r.duration ≠ 0 := by omega
    simp [formatTestLine, formatTestLineDuration, h, hne]
  · intro o t r h hd
    simp [formatTestLine, formatTestLineDuration, h, hd]
  · intro o t h
    simp [formatTestLine, formatTestLineDuration, h]

/-- Witness for the amended C9: a 1500 ms first attempt renders with
"1.50s", via the positive-duration clause. -/
theorem formatTestLine_duration_spec_witness :
    formatTestLine timeOnlyOptions (namedCase "p1" "passed" 1500 none) =
      formatTest timeOnlyOptions (namedCase "p1" "passed" 1500 none)
        (toFixed2 1500 ++ "s") :=
  formatTestLine_duration_spec.1 timeOnlyOptions
    (namedCase "p1" "passed" 1500 none)
    { status := "passed", duration := 1500, errMessage := none }
    rfl (by decide)

/-- C8: GROUP is the title path minus its final segment, with every
segment equal to the project label or to the file basename removed,
joined with the separator glyph; TEST is the final segment; all
placeholder tokens are substituted, so that the claim's example
(template `{GROUP} › {TEST} ({TIME})`, title path
chromium / login.spec.ts / Auth / logs in, project chromium, file
login.spec.ts, TIME "1.23s") renders exactly "Auth › logs in (1.23s)". -/
theorem formatTest_template_spec :
    (∀ (label fpath : String) (groups : List String) (name : String)
      (rs : List AttemptResult),
      (∀ g ∈ groups,
        g ≠ label ∧ g ≠ ((jsSplit fpath "/").getLast?).getD "") →
      groupOf
        { titlePath :=
            label :: ((jsSplit fpath "/").getLast?).getD "" ::
              (groups ++ [name]),
          projectName := some label, file := fpath, results := rs } =
        String.intercalate " › " groups ∧
      testNameOf
        { titlePath :=
            label :: ((jsSplit fpath "/").getLast?).getD "" ::
              (groups ++ [name]),
          projectName := some label, file := fpath, results := rs } =
        name) ∧
    groupOf exampleAuthTest = "Auth" ∧
    testNameOf exampleAuthTest = "logs in" ∧
    formatTest defaultResolvedOptions exampleAuthTest "1.23s" =
      "Auth › logs in (1.23s)" := by
  refine ⟨?_, rfl, rfl, rfl⟩
  intro label fpath groups name rs hg
  have hshape :
      label :: ((jsSplit fpath "/").getLast?).getD "" :: (groups ++ [name]) =
        (label :: ((jsSplit fpath "/").getLast?).getD "" :: groups) ++ [name] := by
    simp
  constructor
  · have hself :
        List.filter
          (fun title =>
            title != label && title != ((jsSplit fpath "/").getLast?).getD "")
          groups = groups := by
      rw [List.filter_eq_self]
      intro g hgm
      have h := hg g hgm
      simp [h.1, h.2]
    unfold groupOf suitesOf browserOf filenameOf
    dsimp only
    simp only [Option.getD_some]
    rw [hshape, List.dropLast_concat,
      List.filter_cons_of_neg (by simp), List.filter_cons_of_neg (by simp),
      hself]
  · unfold testNameOf
    dsimp only
    rw [hshape, List.getLast?_concat]
    rfl

/-- Witness for C8: the general group/test derivation at the claim's
concrete inputs. -/
theorem formatTest_template_spec_witness :
    groupOf
      { titlePath :=
          "chromium" :: ((jsSplit "login.spec.ts" "/").getLast?).getD "" ::
            (["Auth"] ++ ["logs in"]),
        projectName := some "chromium", file := "login.spec.ts",
        results := [] } =
      String.intercalate " › " ["Auth"] ∧
    testNameOf
      { titlePath :=
          "chromium" :: ((jsSplit "login.spec.ts" "/").getLast?).getD "" ::
            (["Auth"] ++ ["logs in"]),
        projectName := some "chromium", file := "login.spec.ts",
        results := [] } =
      "logs in" :=
  formatTest_template_spec.1 "chromium" "login.spec.ts" ["Auth"] "logs in" []
    (by decide)

/-- Extracting the optional Timed Out line of the summary block out of
the conditional accumulation `if c then report ++ … else report`. -/
theorem ite_line_extract (c : Prop) [Decidable c] (X lit n trail : String) :
    (if c then X ++ lit ++ n ++ trail else X) =
      X ++ (if c then lit ++ (n ++ trail) else "") := by
  by_cases h : c
  · rw [if_pos h, if_pos h, String.append_assoc, String.append_assoc]
  · rw [if_neg h, if_neg h, String.append_empty]

/-- Extracting one accumulated section (header + loop + separator) into
`X ++ section`. -/
theorem section_step {α : Type} (g : α → String) (bucket : List α)
    (X l1 n l2 trail : String) :
    (if bucket.length > 0 then
      (bucket.foldl (fun r t => r ++ g t) (X ++ l1 ++ n ++ l2)) ++ trail
    else X) =
      X ++
        (if bucket.length > 0 then
          l1 ++ (n ++ (l2 ++ (concatMap g bucket ++ trail)))
        else "") := by
  by_cases h : bucket.length > 0
  · rw [if_pos h, if_pos h, foldl_append_entry, String.append_assoc,
      String.append_assoc, String.append_assoc, String.append_assoc]
  · rw [if_neg h, if_neg h, String.append_empty]

/-- Extracting the final accumulated section (no separator) into
`X ++ section`. -/
theorem section_step_final {α : Type} (g : α → String) (bucket : List α)
    (X l1 n l2 : String) :
    (if bucket.length > 0 then
      bucket.foldl (fun r t => r ++ g t) (X ++ l1 ++ n ++ l2)
    else X) =
      X ++
        (if bucket.length > 0 then
          l1 ++ (n ++ (l2 ++ concatMap g bucket))
        else "") := by
  by_cases h : bucket.length > 0
  · rw [if_pos h, if_pos h, foldl_append_entry, String.append_assoc,
      String.append_assoc, String.append_assoc]
  · rw [if_neg h, if_neg h, String.append_empty]

set_option maxRecDepth 4000 in
/-- C7: the detailed report is the header followed by the failed,
timed-out, skipped and passed sections in exactly that fixed order,
independent of the order of the input records; a section is the empty
string exactly when its bucket is empty (no header, no entries, no stray
blank lines), and each non-final non-empty section carries its
blank-line separator.  The closed instance feeds the buckets in the
scrambled input order passed / timed-out / skipped / failed and still
renders the sections in the fixed order. -/
theorem generateDetailedReport_sections :
    (∀ (o : ResolvedOptions) (status : String) (tests : List TestCase)
      (d : Nat),
      generateDetailedReport o status tests d =
        detailedHeader o status tests d ++
          detailedFailedSection o (tests.filter (firstStatusIs "failed")) ++
          detailedTimedOutSection o (tests.filter (firstStatusIs "timedOut")) ++
          detailedSkippedSection o (tests.filter (firstStatusIs "skipped")) ++
          detailedPassedSection o (tests.filter (firstStatusIs "passed"))) ∧
    generateDetailedReport exampleDetailedOptions "failed"
        exampleScrambledTests 2500 =
      "❌ Playwright Test Results\n\nStatus: FAILED\nDuration: 2.50s\n\n📊 Summary:\n• Total: 4\n• Passed: 1\n• Failed: 1\n• Skipped: 1\n• Timed Out: 1\n\n❌ FAILED (1):\n\n  • f1 (2.00s)\n    Error: line1\n           line2\n           line3\n\n⏱️ TIMED OUT (1):\n  • t1 (30.00s)\n\n⏭️ SKIPPED (1):\n  • s1 (N/A)\n\n✅ PASSED (1):\n  • p1 (1.50s)\n" := by
  constructor
  · intro o status tests d
    simp only [generateDetailedReport]
    rw [ite_line_extract, section_step, section_step, section_step,
      section_step_final]
    rfl
  · rfl

/-- The single send attempt always resolves: whatever the transport
outcome, `sendTelegramMessage` yields `Except.ok ()` and performs
exactly one HTTP call. -/
theorem sendTelegramMessage_resolves (transport : Transport)
    (bot chat m : String) :
    (sendTelegramMessage transport bot chat m).2 = Except.ok () ∧
    countFetch (sendTelegramMessage transport bot chat m).1 = 1 := by
  cases transport with
  | ok r =>
    by_cases h : r.ok <;>
      simp [sendTelegramMessage, jsFetch, jsSeq, tryCatchJs, jsLogError, h,
        countFetch, isFetchCall, List.countP_cons, List.countP_nil]
  | error e =>
    simp [sendTelegramMessage, jsFetch, jsSeq, tryCatchJs, jsLogError,
      countFetch, isFetchCall, List.countP_cons, List.countP_nil]

/-- C6: the end-of-run handler resolves normally for every delivery
outcome; when the gate allows, exactly one send attempt is made (none
when it denies); a rejected fetch and a non-ok response are each logged
to the diagnostic channel; the missing-suite path also resolves. -/
theorem onEnd_never_rejects :
    ∀ (o : ResolvedOptions) (tests : List TestCase) (status : String)
      (d : Nat) (transport : Transport),
      (onEnd o (some tests) status d transport).2 = Except.ok () ∧
      (onEnd o none status d transport).2 = Except.ok () ∧
      (shouldSend o.sendOn status = true →
        countFetch (onEnd o (some tests) status d transport).1 = 1) ∧
      (shouldSend o.sendOn status = false →
        countFetch (onEnd o (some tests) status d transport).1 = 0) ∧
      (∀ e, transport = Except.error e → shouldSend o.sendOn status = true →
        Effect.logError
            ("TelegramReporter: Error sending message to Telegram: " ++ e) ∈
          (onEnd o (some tests) status d transport).1) ∧
      (∀ r, transport = Except.ok r → r.ok = false →
        shouldSend o.sendOn status = true →
        Effect.logError
            ("TelegramReporter: Failed to send message. Status: " ++
              toString r.status) ∈
          (onEnd o (some tests) status d transport).1) := by
  intro o tests status d transport
  by_cases hg : shouldSend o.sendOn status
  · refine ⟨?_, rfl, ?_, ?_, ?_, ?_⟩
    · simp only [onEnd, hg, Bool.not_true, Bool.false_eq_true, if_false]
      exact (sendTelegramMessage_resolves transport o.botToken o.chatId _).1
    · intro _
      simp only [onEnd, hg, Bool.not_true, Bool.false_eq_true, if_false]
      exact (sendTelegramMessage_resolves transport o.botToken o.chatId _).2
    · intro hcontra
      rw [hg] at hcontra
      exact absurd hcontra (by decide)
    · intro e he _
      subst he
      simp [onEnd, hg, sendTelegramMessage, jsFetch, jsSeq, tryCatchJs,
        jsLogError]
    · intro r hr hok _
      subst hr
      simp [onEnd, hg, sendTelegramMessage, jsFetch, jsSeq, tryCatchJs,
        jsLogError, hok]
  · have hg' : shouldSend o.sendOn status = false := by
      revert hg
      cases shouldSend o.sendOn status <;> simp
    refine ⟨?_, rfl, ?_, ?_, ?_, ?_⟩
    · simp [onEnd, hg']
    · intro hcontra
      rw [hg'] at hcontra
      exact absurd hcontra (by decide)
    · intro _
      simp [onEnd, hg', countFetch]
    · intro e _ hcontra
      rw [hg'] at hcontra
      exact absurd hcontra (by decide)
    · intro r _ _ hcontra
      rw [hg'] at hcontra
      exact absurd hcontra (by decide)

/-- Witness for C6: with the always policy and a rejected fetch, the
handler resolves, one attempt was made, and the rejection is logged. -/
theorem onEnd_never_rejects_witness :
    (onEnd defaultResolvedOptions (some []) "failed" 0
        (Except.error "ECONNREFUSED")).2 = Except.ok () ∧
    countFetch
        (onEnd defaultResolvedOptions (some []) "failed" 0
          (Except.error "ECONNREFUSED")).1 = 1 ∧
    Effect.logError
        ("TelegramReporter: Error sending message to Telegram: " ++
          "ECONNREFUSED") ∈
      (onEnd defaultResolvedOptions (some []) "failed" 0
        (Except.error "ECONNREFUSED")).1 := by
  have h := onEnd_never_rejects defaultResolvedOptions [] "failed" 0
    (Except.error "ECONNREFUSED")
  exact ⟨h.1, h.2.2.1 rfl, h.2.2.2.2.1 "ECONNREFUSED" rfl rfl⟩
